import Mathlib

/-!
Verification of the Moab concept-selector simulator session
(`main.py`, `policies.py`) against its specification.

The session engine is shallowly embedded: float arithmetic is idealised as
real arithmetic, the Python dicts for episode configuration and actions become
records of `Option ℝ` fields (the code only ever reads a fixed enumeration of
keys), and the out-of-scope collaborators (the `MoabModel` physics integrator,
the two exported-brain predictors, the Bonsai transport) are parameters
constrained only by their contracts.
-/

namespace MoabSession

open Classical

noncomputable section

/-- A 3D vector, as the simulator's `ball` position and `ball_vel` velocity. -/
structure Vec3 where
  x : ℝ
  y : ℝ
  z : ℝ

/-- The mutable fields of the external `moab_model.MoabModel` collaborator that
`main.py` reads or writes.  The physics integrator itself is out of scope; only
these fields and the `reset` / `step` / `update_plate` / `set_initial_ball`
contract matter to the session engine. -/
structure MoabModel where
  roll : ℝ
  pitch : ℝ
  height_z : ℝ
  time_delta : ℝ
  jitter : ℝ
  gravity : ℝ
  plate_theta_vel_limit : ℝ
  plate_theta_acc : ℝ
  plate_theta_limit : ℝ
  plate_z_limit : ℝ
  ball_mass : ℝ
  ball_radius : ℝ
  ball_shell : ℝ
  obstacle_radius : ℝ
  obstacle_x : ℝ
  obstacle_y : ℝ
  target_x : ℝ
  target_y : ℝ
  ball_noise : ℝ
  plate_noise : ℝ
  ball : Vec3
  ball_vel : Vec3

/-- The sparse per-episode configuration dict received in an `EpisodeStart`
event.  `episode_start` reads exactly these keys with `dict.get(key, default)`,
so the dict is embedded as a record with one `Option ℝ` field per key;
`none` means the key is absent. -/
structure EpisodeConfig where
  initial_roll : Option ℝ := none
  initial_pitch : Option ℝ := none
  initial_height_z : Option ℝ := none
  time_delta : Option ℝ := none
  jitter : Option ℝ := none
  gravity : Option ℝ := none
  plate_theta_vel_limit : Option ℝ := none
  plate_theta_acc : Option ℝ := none
  plate_theta_limit : Option ℝ := none
  plate_z_limit : Option ℝ := none
  ball_mass : Option ℝ := none
  ball_radius : Option ℝ := none
  ball_shell : Option ℝ := none
  obstacle_radius : Option ℝ := none
  obstacle_x : Option ℝ := none
  obstacle_y : Option ℝ := none
  target_x : Option ℝ := none
  target_y : Option ℝ := none
  ball_noise : Option ℝ := none
  plate_noise : Option ℝ := none
  initial_x : Option ℝ := none
  initial_y : Option ℝ := none
  initial_z : Option ℝ := none
  initial_vel_x : Option ℝ := none
  initial_vel_y : Option ℝ := none
  initial_vel_z : Option ℝ := none
  initial_speed : Option ℝ := none
  initial_direction : Option ℝ := none

/-- The action dict arriving in an `EpisodeStep` event.  `episode_step` only
reads `action.get('concept_index')`; the legacy `command` key (still emitted by
`policies.py`) is carried along to show it is ignored. -/
structure IncomingAction where
  concept_index : Option ℤ := none
  command : Option ℤ := none

/-- The control dict returned by an exported-brain predictor's `get_action`:
the three continuous controls, each possibly absent. -/
structure BrainAction where
  input_roll : Option ℝ := none
  input_pitch : Option ℝ := none
  input_height_z : Option ℝ := none

/-- Which of the two decision services (`self.C1`, `self.C2`) was invoked. -/
inductive Concept where
  | one
  | two
deriving DecidableEq

/-- `TemplateSimulatorSession.clamp`: `min(max_val, max(min_val, val))`. -/
def clamp (val min_val max_val : ℝ) : ℝ :=
  min max_val (max min_val val)

/-- `pyrr.matrix33.create_from_axis_rotation([0,0,1], θ)` followed by
`matrix33.apply_to_vector` (pyrr's row-vector convention, `np.dot(vec, mat)`).
Every property proved below (preservation of the z component, rotation by `0`
and by `π`) is insensitive to pyrr's sine sign convention, since
`Real.sin 0 = Real.sin Real.pi = 0`. -/
def rotZ (theta : ℝ) (v : Vec3) : Vec3 :=
  ⟨v.x * Real.cos theta + v.y * Real.sin theta,
   -(v.x * Real.sin theta) + v.y * Real.cos theta,
   v.z⟩

/-- `TemplateSimulatorSession._set_velocity_for_speed_and_direction`:
heading `(dx, dy)` from ball to target; if it is nonzero, scale `[dx, dy, 0]`
to length `speed` (pyrr `vector.set_length`: componentwise scaling by
`speed / norm`) and rotate it by `direction` about the Z axis, writing the
result into `ball_vel`; if the ball is already at the target, do nothing. -/
def set_velocity_for_speed_and_direction (sim : MoabModel)
    (speed direction : ℝ) : MoabModel :=
  let dx := sim.target_x - sim.ball.x
  let dy := sim.target_y - sim.ball.y
  if dx ≠ 0 ∨ dy ≠ 0 then
    let n := Real.sqrt (dx ^ 2 + dy ^ 2 + 0 ^ 2)
    let vel : Vec3 := ⟨dx * (speed / n), dy * (speed / n), 0 * (speed / n)⟩
    let vel := rotZ direction vel
    { sim with ball_vel := vel }
  else
    sim

/-- `TemplateSimulatorSession.episode_start`.  `defaults` is the simulator
state produced by the collaborator's `reset()` (the pre-determined good
state); `none` for `config` mirrors the `config is None` branch.  The external
`update_plate(plate_reset=True)` call touches only derived plate metrics, none
of the fields modelled here, and `set_initial_ball(x, y, z)` places the ball at
the given coordinates, per the collaborator contract.  The source performs the
assignments one after another, but each assignment writes a distinct simulator
field and each `get` default reads a field not yet written, so the sequence
equals this single simultaneous update, one line per config key in source
order. -/
def episode_start (defaults : MoabModel) (config : Option EpisodeConfig) :
    MoabModel :=
  let cfg := config.getD {}
  let sim : MoabModel :=
    { defaults with
      roll := cfg.initial_roll.getD defaults.roll,
      pitch := cfg.initial_pitch.getD defaults.pitch,
      height_z := cfg.initial_height_z.getD defaults.height_z,
      time_delta := cfg.time_delta.getD defaults.time_delta,
      jitter := cfg.jitter.getD defaults.jitter,
      gravity := cfg.gravity.getD defaults.gravity,
      plate_theta_vel_limit :=
        cfg.plate_theta_vel_limit.getD defaults.plate_theta_vel_limit,
      plate_theta_acc := cfg.plate_theta_acc.getD defaults.plate_theta_acc,
      plate_theta_limit := cfg.plate_theta_limit.getD defaults.plate_theta_limit,
      plate_z_limit := cfg.plate_z_limit.getD defaults.plate_z_limit,
      ball_mass := cfg.ball_mass.getD defaults.ball_mass,
      ball_radius := cfg.ball_radius.getD defaults.ball_radius,
      ball_shell := cfg.ball_shell.getD defaults.ball_shell,
      obstacle_radius := cfg.obstacle_radius.getD defaults.obstacle_radius,
      obstacle_x := cfg.obstacle_x.getD defaults.obstacle_x,
      obstacle_y := cfg.obstacle_y.getD defaults.obstacle_y,
      target_x := cfg.target_x.getD defaults.target_x,
      target_y := cfg.target_y.getD defaults.target_y,
      ball_noise := cfg.ball_noise.getD defaults.ball_noise,
      plate_noise := cfg.plate_noise.getD defaults.plate_noise,
      ball :=
        ⟨cfg.initial_x.getD defaults.ball.x,
         cfg.initial_y.getD defaults.ball.y,
         cfg.initial_z.getD defaults.ball.z⟩,
      ball_vel :=
        ⟨cfg.initial_vel_x.getD defaults.ball_vel.x,
         cfg.initial_vel_y.getD defaults.ball_vel.y,
         cfg.initial_vel_z.getD defaults.ball_vel.z⟩ }
  match cfg.initial_speed, cfg.initial_direction with
  | some s, some d => set_velocity_for_speed_and_direction sim s d
  | _, _ => sim

/-- The external collaborators of the session engine, constrained only by
their contracts: the physics model's post-`reset()` state (also the state of a
freshly constructed model), its `step()` integrator, and the two
exported-brain predictors' `get_action` (composed with the model's `state()`
observation, so typed directly on the model). -/
structure Collaborators where
  resetState : MoabModel
  physStep : MoabModel → MoabModel
  brain1 : MoabModel → BrainAction
  brain2 : MoabModel → BrainAction

/-- `TemplateSimulatorSession.episode_step`, up to (but not including) the
final `simulator.step()` call: route the observation to predictor #1 exactly
when `action.get('concept_index') == 1`, otherwise to predictor #2, then clamp
each returned control into `[-1, 1]` (absent controls default to the
simulator's current value) and apply it.  The second component logs, in order,
the decision-service invocations made. -/
def episode_step_apply (sim : MoabModel) (C : Collaborators)
    (action : IncomingAction) : MoabModel × List Concept :=
  let chosen : BrainAction × Concept :=
    if action.concept_index = some 1 then (C.brain1 sim, Concept.one)
    else (C.brain2 sim, Concept.two)
  let act := chosen.1
  ({ sim with
      roll := clamp (act.input_roll.getD sim.roll) (-1) 1,
      pitch := clamp (act.input_pitch.getD sim.pitch) (-1) 1,
      height_z := clamp (act.input_height_z.getD sim.height_z) (-1) 1 },
   [chosen.2])

/-- One event pulled from the orchestrator's `advance()` call, as dispatched
by the event loop in `main()`.  `other` is any unrecognised event type
(the final `else: pass` branch). -/
inductive Event where
  | idle (callback_time : ℝ)
  | episodeStart (config : Option EpisodeConfig)
  | episodeStep (action : IncomingAction)
  | episodeFinish
  | unregister
  | other

/-- The state of `main()`'s session loop: its local counters, the simulator
state, and counts of the collaborator calls whose multiplicity the
specification constrains (`simulator.reset()`, `simulator.step()`,
`client.session.delete()`). -/
structure LoopState where
  iteration : ℕ
  episode : ℕ
  sim : MoabModel
  resetCalls : ℕ
  stepCalls : ℕ
  deleteCalls : ℕ

/-- The body of the event loop in `main()` for one received event.  Note the
`unregister` arm: the code calls `client.session.delete(...)` and prints, but
contains no `break` or `return`, so the loop state simply continues. -/
def handleEvent (C : Collaborators) (s : LoopState) (e : Event) : LoopState :=
  match e with
  | .idle _ => s
  | .episodeStart cfg =>
      { s with sim := episode_start C.resetState cfg,
               resetCalls := s.resetCalls + 1,
               episode := s.episode + 1 }
  | .episodeStep a =>
      { s with iteration := s.iteration + 1,
               sim := C.physStep (episode_step_apply s.sim C a).1,
               stepCalls := s.stepCalls + 1 }
  | .episodeFinish => { s with iteration := 0 }
  | .unregister => { s with deleteCalls := s.deleteCalls + 1 }
  | .other => s

/-- The session loop over a finite prefix of the event stream delivered by
successive `advance()` calls. -/
def processEvents (C : Collaborators) (events : List Event) (s : LoopState) :
    LoopState :=
  events.foldl (handleEvent C) s

/-- The loop state at entry of `main()`'s `try` block: counters zero, a
freshly constructed simulator. -/
def initialState (C : Collaborators) : LoopState :=
  { iteration := 0, episode := 0, sim := C.resetState,
    resetCalls := 0, stepCalls := 0, deleteCalls := 0 }

/-- How `main()`'s `try` block is left.  The `while True` loop has no normal
exit: either it is still running (`running`), or one of its blocking calls
raised `KeyboardInterrupt` (`interrupted`) or any other exception
(`errored`); the two `except` handlers each call `client.session.delete(...)`
once and fall off the end of `main()`. -/
inductive SessionExit where
  | running
  | interrupted
  | errored

/-- A whole run of `main()`: process a finite prefix of the event stream, then
leave the `try` block as `exit` says. -/
def runSession (C : Collaborators) (events : List Event) (exit : SessionExit) :
    LoopState :=
  let s := processEvents C events (initialState C)
  match exit with
  | .running => s
  | .interrupted => { s with deleteCalls := s.deleteCalls + 1 }
  | .errored => { s with deleteCalls := s.deleteCalls + 1 }

/-- A concrete simulator state with every field zero, used as a concrete
post-`reset()` default state in witnesses and counterexamples. -/
def zeroModel : MoabModel :=
  { roll := 0, pitch := 0, height_z := 0, time_delta := 0, jitter := 0,
    gravity := 0, plate_theta_vel_limit := 0, plate_theta_acc := 0,
    plate_theta_limit := 0, plate_z_limit := 0, ball_mass := 0,
    ball_radius := 0, ball_shell := 0, obstacle_radius := 0, obstacle_x := 0,
    obstacle_y := 0, target_x := 0, target_y := 0, ball_noise := 0,
    plate_noise := 0, ball := ⟨0, 0, 0⟩, ball_vel := ⟨0, 0, 0⟩ }

/-- Concrete collaborators: zero reset state, identity physics step, and two
predictors that always return an empty action dict. -/
def zeroCollab : Collaborators :=
  { resetState := zeroModel, physStep := fun m => m,
    brain1 := fun _ => {}, brain2 := fun _ => {} }

/-- A concrete simulator state with the target at `(1, 0)`, the ball at the
origin, and a nonzero prior velocity, used in witnesses and counterexamples
that exercise the speed+direction path. -/
def velModel : MoabModel :=
  { zeroModel with
    target_x := 1,
    ball_vel := ⟨7 / 10, 0, 3⟩ }

/-- The decision-service action chosen by `episode_step`'s selector for a
given incoming action: predictor #1 exactly when `concept_index == 1`,
predictor #2 otherwise. -/
def chosenAction (sim : MoabModel) (C : Collaborators)
    (action : IncomingAction) : BrainAction :=
  if action.concept_index = some 1 then C.brain1 sim else C.brain2 sim

end

/-- The rotation about the Z axis leaves the z component untouched
(`M[0][2] = M[1][2] = 0`, `M[2][2] = 1` for axis `[0,0,1]`). -/
theorem rotZ_preserves_z (theta : ℝ) (v : Vec3) : (rotZ theta v).z = v.z := rfl

/-- Helper: when the heading to the target is nonzero, the velocity written by
`_set_velocity_for_speed_and_direction` has z component `0 * (speed / n) = 0`. -/
theorem set_velocity_ball_vel_z (sim : MoabModel) (s d : ℝ)
    (h : sim.target_x - sim.ball.x ≠ 0 ∨ sim.target_y - sim.ball.y ≠ 0) :
    (set_velocity_for_speed_and_direction sim s d).ball_vel.z = 0 := by
  simp only [set_velocity_for_speed_and_direction]
  rw [if_pos h]
  simp [rotZ]

/-- Claim C2: every step makes exactly one decision-service call; it goes to
service #1 exactly when the incoming action's `concept_index` equals 1, and to
service #2 for every other incoming action (`concept_index` 2, absent, a
legacy `command` field, or any other value). -/
theorem routing_per_step (C : Collaborators) (sim : MoabModel)
    (a : IncomingAction) :
    (episode_step_apply sim C a).2 =
      (if a.concept_index = some 1 then [Concept.one] else [Concept.two]) ∧
    (episode_step_apply sim C a).2.length = 1 := by
  unfold episode_step_apply
  by_cases h : a.concept_index = some 1 <;> simp [h]

/-- Claim C5: when the ball already sits at the target
(`target_x - ball.x = 0` and `target_y - ball.y = 0`), the speed/direction
request is a no-op for any speed and direction: the whole simulator state, in
particular the velocity vector, is unchanged. -/
theorem speed_direction_noop (sim : MoabModel) (speed direction : ℝ)
    (hx : sim.target_x - sim.ball.x = 0) (hy : sim.target_y - sim.ball.y = 0) :
    set_velocity_for_speed_and_direction sim speed direction = sim := by
  simp only [set_velocity_for_speed_and_direction]
  rw [if_neg]
  push_neg
  exact ⟨hx, hy⟩

/-- Witness for `speed_direction_noop`: the all-zero model has the ball at the
target, and a speed-5, direction-2 request leaves it unchanged. -/
theorem speed_direction_noop_witness :
    (zeroModel.target_x - zeroModel.ball.x = 0 ∧
     zeroModel.target_y - zeroModel.ball.y = 0) ∧
    set_velocity_for_speed_and_direction zeroModel 5 2 = zeroModel :=
  ⟨⟨by simp [zeroModel], by simp [zeroModel]⟩,
   speed_direction_noop zeroModel 5 2 (by simp [zeroModel])
     (by simp [zeroModel])⟩

/-- Claim C10: whenever the speed+direction path fires (both `initial_speed`
and `initial_direction` supplied, heading to target nonzero), the resulting
ball velocity's z component is exactly 0 — the heading vector is built with
z = 0 and rotation about the vertical axis preserves it — so an explicitly
supplied `initial_vel_z` is overwritten with 0. -/
theorem speed_direction_zero_z :
    (∀ (sim : MoabModel) (s d : ℝ),
      (sim.target_x - sim.ball.x ≠ 0 ∨ sim.target_y - sim.ball.y ≠ 0) →
      (set_velocity_for_speed_and_direction sim s d).ball_vel.z = 0) ∧
    (∀ (defaults : MoabModel) (cfg : EpisodeConfig) (s d : ℝ),
      cfg.initial_speed = some s → cfg.initial_direction = some d →
      (cfg.target_x.getD defaults.target_x -
          cfg.initial_x.getD defaults.ball.x ≠ 0 ∨
       cfg.target_y.getD defaults.target_y -
          cfg.initial_y.getD defaults.ball.y ≠ 0) →
      (episode_start defaults (some cfg)).ball_vel.z = 0) := by
  refine ⟨set_velocity_ball_vel_z, ?_⟩
  intro defaults cfg s d hs hd h
  simp only [episode_start, Option.getD_some, hs, hd]
  exact set_velocity_ball_vel_z _ s d h

/-- Witness for `speed_direction_zero_z` at `velModel`: target at `(1, 0)`,
ball at the origin, prior velocity with a nonzero z component. -/
theorem speed_direction_zero_z_witness :
    (velModel.target_x - velModel.ball.x ≠ 0 ∨
     velModel.target_y - velModel.ball.y ≠ 0) ∧
    (set_velocity_for_speed_and_direction velModel 5 2).ball_vel.z = 0 :=
  ⟨Or.inl (by simp [velModel, zeroModel]),
   speed_direction_zero_z.1 velModel 5 2
     (Or.inl (by simp [velModel, zeroModel]))⟩

/-- Claim C7: with the ball at `(0, 0)` and the target at `(10, 0)`,
`initial_speed = 5` with `initial_direction = 0` yields the velocity
`(5, 0, 0)` (magnitude 5 along +X), and `initial_direction = π` with the same
setup yields `(-5, 0, 0)` (magnitude 5 along -X). -/
theorem speed_direction_concrete (sim : MoabModel)
    (hbx : sim.ball.x = 0) (hby : sim.ball.y = 0)
    (htx : sim.target_x = 10) (hty : sim.target_y = 0) :
    (set_velocity_for_speed_and_direction sim 5 0).ball_vel = ⟨5, 0, 0⟩ ∧
    (set_velocity_for_speed_and_direction sim 5 Real.pi).ball_vel =
      ⟨-5, 0, 0⟩ := by
  have hsqrt : Real.sqrt ((10 : ℝ) ^ 2 + 0 ^ 2 + 0 ^ 2) = 10 := by
    rw [show ((10 : ℝ) ^ 2 + 0 ^ 2 + 0 ^ 2) = 10 ^ 2 by norm_num]
    exact Real.sqrt_sq (by norm_num)
  constructor <;>
    · simp only [set_velocity_for_speed_and_direction, hbx, hby, htx, hty,
        sub_zero]
      rw [if_pos (by norm_num : (10 : ℝ) ≠ 0 ∨ (0 : ℝ) ≠ 0)]
      simp [rotZ, hsqrt, Real.cos_pi, Real.sin_pi]
      norm_num

/-- Witness for `speed_direction_concrete` at the all-zero model with the
target moved to `(10, 0)`. -/
theorem speed_direction_concrete_witness :
    (({ zeroModel with target_x := 10 } : MoabModel).ball.x = 0 ∧
     ({ zeroModel with target_x := 10 } : MoabModel).ball.y = 0 ∧
     ({ zeroModel with target_x := 10 } : MoabModel).target_x = 10 ∧
     ({ zeroModel with target_x := 10 } : MoabModel).target_y = 0) ∧
    (set_velocity_for_speed_and_direction
        { zeroModel with target_x := 10 } 5 0).ball_vel = ⟨5, 0, 0⟩ ∧
    (set_velocity_for_speed_and_direction
        { zeroModel with target_x := 10 } 5 Real.pi).ball_vel = ⟨-5, 0, 0⟩ :=
  ⟨⟨rfl, rfl, rfl, rfl⟩,
   speed_direction_concrete { zeroModel with target_x := 10 } rfl rfl rfl rfl⟩

/-- The episode config used for concrete speed+direction runs:
`initial_speed = 5`, `initial_direction = 0`, every other key absent. -/
def speedCfg : EpisodeConfig :=
  { initial_speed := some 5, initial_direction := some 0 }

/-- Claim C6: the speed+direction specification takes effect only when both
`initial_speed` and `initial_direction` are supplied, and then it is applied
after the explicit `initial_vel_*` merge (to the state that merge produced);
when at most one of the two is supplied, the explicit components (or the
post-reset velocity) stand. -/
theorem speed_direction_precedence (defaults : MoabModel)
    (cfg : EpisodeConfig) :
    (∀ s d, cfg.initial_speed = some s → cfg.initial_direction = some d →
      episode_start defaults (some cfg) =
        set_velocity_for_speed_and_direction
          (episode_start defaults
            (some { cfg with
                    initial_speed := none,
                    initial_direction := none }))
          s d) ∧
    ((cfg.initial_speed = none ∨ cfg.initial_direction = none) →
      (episode_start defaults (some cfg)).ball_vel =
        ⟨cfg.initial_vel_x.getD defaults.ball_vel.x,
         cfg.initial_vel_y.getD defaults.ball_vel.y,
         cfg.initial_vel_z.getD defaults.ball_vel.z⟩) := by
  constructor
  · intro s d hs hd
    simp only [episode_start, Option.getD_some, hs, hd]
  · intro h
    rcases hs : cfg.initial_speed with _ | s
    · simp only [episode_start, Option.getD_some, hs]
    · rcases h with h | h
      · simp [hs] at h
      · simp only [episode_start, Option.getD_some, hs, h]

/-- Witness for `speed_direction_precedence` at the all-zero model and
`speedCfg`. -/
theorem speed_direction_precedence_witness :
    (speedCfg.initial_speed = some 5 ∧
     speedCfg.initial_direction = some 0) ∧
    episode_start zeroModel (some speedCfg) =
      set_velocity_for_speed_and_direction
        (episode_start zeroModel
          (some { speedCfg with
                  initial_speed := none,
                  initial_direction := none }))
        5 0 :=
  ⟨⟨rfl, rfl⟩, (speed_direction_precedence zeroModel speedCfg).1 5 0 rfl rfl⟩

/-- Claim C4 counterexample: with `velModel` as the post-reset state (target
at `(1, 0)`, ball at the origin, default `ball_vel.x = 7/10`) and overrides
supplying only `initial_speed = 5` and `initial_direction = 0`, the recognized
field `initial_vel_x` is absent from the overrides yet the resulting
`ball_vel.x` is `5`, not its post-reset default `7/10`: the speed+direction
path overwrites the velocity components. -/
theorem config_merge_cex :
    speedCfg.initial_vel_x = none ∧
    velModel.ball_vel.x = 7 / 10 ∧
    (episode_start velModel (some speedCfg)).ball_vel.x = 5 ∧
    ((5 : ℝ) ≠ 7 / 10) := by
  refine ⟨rfl, rfl, ?_, by norm_num⟩
  norm_num [episode_start, speedCfg, velModel, zeroModel,
    set_velocity_for_speed_and_direction, rotZ, Real.sqrt_one]

/-- Claim C4 (amended): for every recognized episode-config field,
`episode_start` applies the override when present and keeps the simulator's
post-reset default when absent — with the one exception forced by
`config_merge_cex`: when both `initial_speed` and `initial_direction` are
supplied, the velocity components are instead derived from them.  An absent or
`None` config leaves every field at its default. -/
theorem config_merge (defaults : MoabModel) (cfg : EpisodeConfig)
    (h : cfg.initial_speed = none ∨ cfg.initial_direction = none) :
    episode_start defaults none = defaults ∧
    episode_start defaults (some cfg) =
      { roll := cfg.initial_roll.getD defaults.roll,
        pitch := cfg.initial_pitch.getD defaults.pitch,
        height_z := cfg.initial_height_z.getD defaults.height_z,
        time_delta := cfg.time_delta.getD defaults.time_delta,
        jitter := cfg.jitter.getD defaults.jitter,
        gravity := cfg.gravity.getD defaults.gravity,
        plate_theta_vel_limit :=
          cfg.plate_theta_vel_limit.getD defaults.plate_theta_vel_limit,
        plate_theta_acc := cfg.plate_theta_acc.getD defaults.plate_theta_acc,
        plate_theta_limit :=
          cfg.plate_theta_limit.getD defaults.plate_theta_limit,
        plate_z_limit := cfg.plate_z_limit.getD defaults.plate_z_limit,
        ball_mass := cfg.ball_mass.getD defaults.ball_mass,
        ball_radius := cfg.ball_radius.getD defaults.ball_radius,
        ball_shell := cfg.ball_shell.getD defaults.ball_shell,
        obstacle_radius := cfg.obstacle_radius.getD defaults.obstacle_radius,
        obstacle_x := cfg.obstacle_x.getD defaults.obstacle_x,
        obstacle_y := cfg.obstacle_y.getD defaults.obstacle_y,
        target_x := cfg.target_x.getD defaults.target_x,
        target_y := cfg.target_y.getD defaults.target_y,
        ball_noise := cfg.ball_noise.getD defaults.ball_noise,
        plate_noise := cfg.plate_noise.getD defaults.plate_noise,
        ball :=
          ⟨cfg.initial_x.getD defaults.ball.x,
           cfg.initial_y.getD defaults.ball.y,
           cfg.initial_z.getD defaults.ball.z⟩,
        ball_vel :=
          ⟨cfg.initial_vel_x.getD defaults.ball_vel.x,
           cfg.initial_vel_y.getD defaults.ball_vel.y,
           cfg.initial_vel_z.getD defaults.ball_vel.z⟩ } := by
  constructor
  · rfl
  · rcases hs : cfg.initial_speed with _ | s
    · simp only [episode_start, Option.getD_some, hs]
    · rcases h with h | h
      · simp [hs] at h
      · simp only [episode_start, Option.getD_some, hs, h]

/-- The episode config overriding only `initial_roll`, with the out-of-range
value `5/2`. -/
noncomputable def rollCfg : EpisodeConfig :=
  { initial_roll := some (5 / 2) }

/-- Witness for `config_merge` at the all-zero model and `rollCfg`. -/
theorem config_merge_witness :
    (rollCfg.initial_speed = none ∨ rollCfg.initial_direction = none) ∧
    episode_start zeroModel (some rollCfg) =
      { zeroModel with roll := 5 / 2 } := by
  refine ⟨Or.inl rfl, ?_⟩
  rw [(config_merge zeroModel rollCfg (Or.inl rfl)).2]
  rfl

/-- Claim C3 counterexample: starting an episode with `initial_roll = 5/2`
(no range validation is performed there) and then stepping with an action that
routes to predictor #2, which returns an action with no `input_roll`, the
simulator's roll becomes `clamp(5/2) = 1` — it does not retain its current
value `5/2` unchanged. -/
theorem clamp_absent_cex :
    (episode_start zeroModel (some rollCfg)).roll = 5 / 2 ∧
    (zeroCollab.brain2 (episode_start zeroModel (some rollCfg))).input_roll =
      none ∧
    (episode_step_apply (episode_start zeroModel (some rollCfg)) zeroCollab
        {}).1.roll = 1 ∧
    ((5 : ℝ) / 2 ≠ 1) := by
  refine ⟨rfl, rfl, ?_, by norm_num⟩
  have hstep :
      (episode_step_apply (episode_start zeroModel (some rollCfg)) zeroCollab
        {}).1.roll = clamp (5 / 2) (-1) 1 := rfl
  rw [hstep]
  rw [clamp, max_eq_right (by norm_num : (-1 : ℝ) ≤ 5 / 2),
    min_eq_left (by norm_num : (1 : ℝ) ≤ 5 / 2)]

/-- Claim C3 (amended): each continuous control field present in the chosen
decision service's action is clamped to `[-1, 1]` via
`min(max_val, max(min_val, val))` before being applied; an absent field is
defaulted to the simulator's current value for that control and then clamped
the same way — so it is left unchanged exactly when that current value already
lies in `[-1, 1]`. -/
theorem clamp_controls (sim : MoabModel) (C : Collaborators)
    (a : IncomingAction) :
    (episode_step_apply sim C a).1.roll =
      clamp ((chosenAction sim C a).input_roll.getD sim.roll) (-1) 1 ∧
    (episode_step_apply sim C a).1.pitch =
      clamp ((chosenAction sim C a).input_pitch.getD sim.pitch) (-1) 1 ∧
    (episode_step_apply sim C a).1.height_z =
      clamp ((chosenAction sim C a).input_height_z.getD sim.height_z)
        (-1) 1 ∧
    ((chosenAction sim C a).input_roll = none →
      -1 ≤ sim.roll → sim.roll ≤ 1 →
      (episode_step_apply sim C a).1.roll = sim.roll) ∧
    ((chosenAction sim C a).input_pitch = none →
      -1 ≤ sim.pitch → sim.pitch ≤ 1 →
      (episode_step_apply sim C a).1.pitch = sim.pitch) ∧
    ((chosenAction sim C a).input_height_z = none →
      -1 ≤ sim.height_z → sim.height_z ≤ 1 →
      (episode_step_apply sim C a).1.height_z = sim.height_z) := by
  have hb : ∀ x : ℝ, -1 ≤ x → x ≤ 1 → clamp x (-1) 1 = x := by
    intro x h1 h2
    unfold clamp
    rw [max_eq_right h1, min_eq_right h2]
  have key : (episode_step_apply sim C a).1 =
      { sim with
        roll := clamp ((chosenAction sim C a).input_roll.getD sim.roll)
          (-1) 1,
        pitch := clamp ((chosenAction sim C a).input_pitch.getD sim.pitch)
          (-1) 1,
        height_z :=
          clamp ((chosenAction sim C a).input_height_z.getD sim.height_z)
            (-1) 1 } := by
    unfold episode_step_apply chosenAction
    by_cases h : a.concept_index = some 1 <;> simp [h]
  refine ⟨by rw [key], by rw [key], by rw [key], ?_, ?_, ?_⟩ <;>
    intro h0 h1 h2 <;>
    rw [key] <;>
    simp only [h0, Option.getD_none] <;>
    exact hb _ h1 h2

/-- Witness for `clamp_controls` at the all-zero model, the always-empty
predictors, and an empty incoming action. -/
theorem clamp_controls_witness :
    ((chosenAction zeroModel zeroCollab {}).input_roll = none ∧
     (-1 : ℝ) ≤ zeroModel.roll ∧ zeroModel.roll ≤ 1) ∧
    (episode_step_apply zeroModel zeroCollab {}).1.roll = zeroModel.roll :=
  ⟨⟨rfl, by norm_num [zeroModel], by norm_num [zeroModel]⟩,
   (clamp_controls zeroModel zeroCollab {}).2.2.2.1 rfl
     (by norm_num [zeroModel]) (by norm_num [zeroModel])⟩

/-- Claim C9: for `min_val ≤ max_val`, `clamp` lands in
`[min_val, max_val]`, is idempotent, and fixes any value already in range. -/
theorem clamp_spec (val min_val max_val : ℝ) (h : min_val ≤ max_val) :
    min_val ≤ clamp val min_val max_val ∧
    clamp val min_val max_val ≤ max_val ∧
    clamp (clamp val min_val max_val) min_val max_val =
      clamp val min_val max_val ∧
    (min_val ≤ val → val ≤ max_val → clamp val min_val max_val = val) := by
  unfold clamp
  refine ⟨le_min h (le_max_left _ _), min_le_left _ _, ?_, ?_⟩
  · rw [max_eq_right (le_min h (le_max_left _ _)),
      min_eq_right (min_le_left _ _)]
  · intro h1 h2
    rw [max_eq_right h1, min_eq_right h2]

/-- Helper: a run of `EpisodeStep` events adds one `simulator.step()` call
per event and never calls `reset()` or `delete()`. -/
theorem processEvents_steps (C : Collaborators) (acts : List IncomingAction) :
    ∀ s : LoopState,
      (processEvents C (acts.map Event.episodeStep) s).stepCalls =
        s.stepCalls + acts.length ∧
      (processEvents C (acts.map Event.episodeStep) s).resetCalls =
        s.resetCalls ∧
      (processEvents C (acts.map Event.episodeStep) s).deleteCalls =
        s.deleteCalls := by
  induction acts with
  | nil => intro s; simp [processEvents]
  | cons a acts ih =>
      intro s
      have h := ih (handleEvent C s (Event.episodeStep a))
      simp only [processEvents, List.map_cons, List.foldl_cons,
        List.length_cons] at h ⊢
      simp only [handleEvent] at h ⊢
      refine ⟨?_, ?_, ?_⟩
      · rw [h.1]; omega
      · rw [h.2.1]
      · rw [h.2.2]

/-- Claim C8: an `EpisodeStart` event followed by `N` `EpisodeStep` events
followed by an `EpisodeFinish` event invokes the physics collaborator's
`step()` exactly `N` times and its `reset()` exactly once, and
`EpisodeFinish` resets the iteration counter to 0 (stated for an arbitrary
list of step actions, with `N` its length, from an arbitrary loop state). -/
theorem lifecycle_counts (C : Collaborators) (s : LoopState)
    (cfg : Option EpisodeConfig) (acts : List IncomingAction) :
    (processEvents C (Event.episodeStart cfg ::
        (acts.map Event.episodeStep ++ [Event.episodeFinish])) s).stepCalls =
      s.stepCalls + acts.length ∧
    (processEvents C (Event.episodeStart cfg ::
        (acts.map Event.episodeStep ++ [Event.episodeFinish])) s).resetCalls =
      s.resetCalls + 1 ∧
    (processEvents C (Event.episodeStart cfg ::
        (acts.map Event.episodeStep ++ [Event.episodeFinish])) s).iteration =
      0 := by
  have hsplit : processEvents C (Event.episodeStart cfg ::
        (acts.map Event.episodeStep ++ [Event.episodeFinish])) s =
      handleEvent C
        (processEvents C (acts.map Event.episodeStep)
          (handleEvent C s (Event.episodeStart cfg)))
        Event.episodeFinish := by
    simp [processEvents, List.foldl_append]
  have h0 := processEvents_steps C acts (handleEvent C s (Event.episodeStart cfg))
  simp only [handleEvent] at h0
  rw [hsplit]
  simp only [handleEvent]
  exact ⟨h0.1, h0.2.1, trivial⟩

/-- Claim C1 (code bug): the `Unregister` arm of the event loop in `main()`
calls `client.session.delete(...)` but contains no `break` or `return`, so
the loop does not terminate there — a subsequent event is still processed —
and when the next `advance()` call on the deleted session raises, the generic
exception handler calls `delete()` a second time.  Only the interrupt and
error exit paths, with no prior `Unregister`, delete exactly once. -/
theorem unregister_teardown_bug :
    (processEvents zeroCollab [Event.unregister]
        (initialState zeroCollab)).deleteCalls = 1 ∧
    (processEvents zeroCollab [Event.unregister, Event.episodeStep {}]
        (initialState zeroCollab)).stepCalls = 1 ∧
    (runSession zeroCollab [Event.unregister]
        SessionExit.errored).deleteCalls = 2 ∧
    (runSession zeroCollab [] SessionExit.interrupted).deleteCalls = 1 ∧
    (runSession zeroCollab [] SessionExit.errored).deleteCalls = 1 :=
  ⟨rfl, rfl, rfl, rfl, rfl⟩

/-- Witness for `clamp_spec` at `val = 7`, `min_val = -1`, `max_val = 1`. -/
theorem clamp_spec_witness :
    ((-1 : ℝ) ≤ 1) ∧
    ((-1 : ℝ) ≤ clamp 7 (-1) 1 ∧ clamp 7 (-1) 1 ≤ 1 ∧
      clamp (clamp 7 (-1) 1) (-1) 1 = clamp 7 (-1) 1 ∧
      ((-1 : ℝ) ≤ 7 → (7 : ℝ) ≤ 1 → clamp 7 (-1) 1 = 7)) :=
  ⟨by norm_num, clamp_spec 7 (-1) 1 (by norm_num)⟩

end MoabSession
